import Mathlib

/-
Shallow embedding of the IMDb scraping client from pkg/client/imdb.go.

Modelling conventions:
- Machine ints are Nat/Int with explicit range checks where the source
  checks them (strconv.Atoi range is the signed 64-bit range).
- A Go function that can call log.Fatalf is embedded with result
  GoResult, whose constructor fatal models the process abort; the
  constructor crash models a Go runtime abort (nil pointer dereference
  or index out of range).
- The network is an explicit parameter: a function from requestParams to
  the outcome of http.NewRequest / http.Client.Do for that request.
- An HTTP response body is consumed by the source either as CSV (via
  csv.Reader.ReadAll) or as HTML (via goquery selectors); the embedding
  carries the outcome of those decoders as fields of HttpResponse.
- Logging (zap / log.Println style info messages) has no observable
  effect and is not modelled; DrainBody only closes the body.
-/

set_option autoImplicit false

namespace ImdbClient

/-- Go error values produced by the client.  wrapped models
fmt.Errorf with a %w verb (errors.As traverses into inner);
imdbError models the ImdbError struct literal of doRequest
(fields httpMethod, url, statusCode, details);
resourceNotFound models the ResourceNotFoundError struct literal
(fields resourceType, resourceId); basic models any other opaque
error (fmt.Errorf without %w, or an underlying library error). -/
inductive GoErrorV where
  | wrapped (msg : String) (inner : GoErrorV)
  | imdbError (httpMethod : String) (url : String) (statusCode : Nat) (details : String)
  | resourceNotFound (resourceType : String) (resourceId : Option String)
  | basic (msg : String)
  deriving DecidableEq

/-- Result of a Go computation: a normal value, a returned error value,
a runtime crash (nil dereference / index out of range), or a process
abort through log.Fatalf. -/
inductive GoResult (α : Type) where
  | ok (val : α)
  | err (e : GoErrorV)
  | crash
  | fatal
  deriving DecidableEq

/-- errors.As(err, new(*ResourceNotFoundError)): walks the Unwrap chain
looking for a *ResourceNotFoundError. -/
def isResourceNotFound : GoErrorV → Bool
  | .wrapped _ inner => isResourceNotFound inner
  | .resourceNotFound _ _ => true
  | _ => false

/-- Does the error chain contain an ImdbError with status code 403? -/
def containsImdb403 : GoErrorV → Bool
  | .wrapped _ inner => containsImdb403 inner
  | .imdbError _ _ statusCode _ => statusCode = 403
  | _ => false

/-- time.Time value as produced by time.Parse with layout 2006-01-02:
only the calendar date fields are relevant. -/
structure GoDate where
  year : Nat
  month : Nat
  day : Nat
  deriving DecidableEq

/-- entities.ImdbItem (declared outside this package; fields as used in
imdb.go: Id, TitleType, Rating *int, RatingDate *time.Time). -/
structure ImdbItem where
  Id : String
  TitleType : String
  Rating : Option Int
  RatingDate : Option GoDate
  deriving DecidableEq

/-- entities.DataPair (declared outside this package; fields as used in
the ListsScrape composite literal). -/
structure DataPair where
  ImdbList : List ImdbItem
  ImdbListId : String
  ImdbListName : String
  TraktListId : String
  deriving DecidableEq

/-- ImdbConfig from imdb.go. -/
structure ImdbConfig where
  CookieAtMain : String
  CookieUbidMain : String
  UserId : String
  WatchlistId : String
  deriving DecidableEq

/-- requestParams (declared outside this package; fields as read by
doRequest: Method, Path, Body). -/
structure requestParams where
  Method : String
  Path : String
  Body : Option String
  deriving DecidableEq

/-- The Content-Disposition response header, carried through the outcome
of mime.ParseMediaType, which is the only way the source consumes it:
absent models Header.Get returning the empty string, unparsable models
a mime.ParseMediaType error, parsed gives the parameter map (an
association list; map access on a missing key yields the empty string). -/
inductive CDHeader where
  | absent
  | unparsable
  | parsed (params : List (String × String))
  deriving DecidableEq

/-- An HTML body as consumed through goquery selectors in imdb.go:
parseOk models success of goquery.NewDocumentFromReader;
userIdAttr is the data-userid attribute of the selection
.user-profile.userId (none when Attr reports ok = false);
watchlistIdAttr is the content attribute of the selection
meta[property=pageId]; userListIds lists, in document order, the id
attribute of each .user-list element (none for an element without
an id attribute). -/
structure HtmlDoc where
  parseOk : Bool
  userIdAttr : Option String
  watchlistIdAttr : Option String
  userListIds : List (Option String)
  deriving DecidableEq

/-- http.Response as consumed by imdb.go: the status code, the
Content-Disposition header (through its parse outcome), the CSV decode
of the body (none models a csv.Reader.ReadAll error, which the source
turns into log.Fatalf), and the HTML view of the body. -/
structure HttpResponse where
  StatusCode : Nat
  contentDisposition : CDHeader
  csvData : Option (List (List String))
  html : HtmlDoc
  deriving DecidableEq

/-- An empty HTML document (no matching selections). -/
def emptyHtml : HtmlDoc := ⟨true, none, none, []⟩

/-- Outcome of http.NewRequest followed by http.Client.Do for one
request: newReqErr models http.NewRequest returning an error,
doErr models http.Client.Do returning an error (in which case the
returned *http.Response is nil), ok gives the response. -/
inductive DoOutcome where
  | newReqErr (cause : GoErrorV)
  | doErr (cause : GoErrorV)
  | ok (res : HttpResponse)
  deriving DecidableEq

/-- The network environment: behaviour of the HTTP stack per request. -/
def Network : Type := requestParams → DoOutcome

/- Path constants and templates of imdb.go; fmt.Sprintf with a %s verb
is modelled as string concatenation. -/

def imdbPathBase : String := "https://www.imdb.com"

def imdbPathListExport (listId : String) : String := "/list/" ++ listId ++ "/export"

def imdbPathLists (userId : String) : String := "/user/" ++ userId ++ "/lists"

def imdbPathProfile : String := "/profile"

def imdbPathRatingsExport (userId : String) : String := "/user/" ++ userId ++ "/ratings/export"

def imdbPathWatchlist : String := "/watchlist"

/-- Modelled from the spec: the constants resourceTypeList,
resourceTypeWatchlist, resourceTypeRating are declared outside
src/pkg/client/imdb.go; the spec names the resource kinds
list / watchlist / rating.  Only their distinctness is relied upon. -/
def resourceTypeList : String := "list"

/-- Modelled from the spec: see resourceTypeList. -/
def resourceTypeWatchlist : String := "watchlist"

/-- Modelled from the spec: see resourceTypeList. -/
def resourceTypeRating : String := "rating"

/- Pure text helpers used by the parsing paths. -/

/-- Decimal digit characters, by code point (0 is 48, 9 is 57). -/
def isDigitChar (c : Char) : Bool :=
  decide (48 ≤ c.toNat ∧ c.toNat ≤ 57)

/-- Numeric value of a decimal digit character. -/
def digitV (c : Char) : Nat := c.toNat - 48

/-- Value of a nonempty all-digit run, most significant first. -/
def digitsVal (ds : List Char) : Nat :=
  ds.foldl (fun acc c => acc * 10 + digitV c) 0

/-- strconv.Atoi: optional single leading + or -, then at least one
decimal digit and nothing else; the value must fit in a signed 64-bit
int (Atoi reports ErrRange otherwise). -/
def atoi (s : String) : Option Int :=
  let core : List Char → Option Nat := fun ds =>
    if ds.isEmpty then none
    else if ds.all isDigitChar then some (digitsVal ds) else none
  match s.data with
  | '+' :: ds => (core ds).bind (fun n => if n < 2 ^ 63 then some (Int.ofNat n) else none)
  | '-' :: ds => (core ds).bind (fun n => if n ≤ 2 ^ 63 then some (-(Int.ofNat n)) else none)
  | ds => (core ds).bind (fun n => if n < 2 ^ 63 then some (Int.ofNat n) else none)

/-- Number of days in a month, with the Gregorian leap rule, as
validated by time.Parse. -/
def daysInMonth (year month : Nat) : Nat :=
  if month = 2 then
    if year % 4 = 0 ∧ (year % 100 ≠ 0 ∨ year % 400 = 0) then 29 else 28
  else if month = 4 ∨ month = 6 ∨ month = 9 ∨ month = 11 then 30
  else 31

/-- time.Parse with layout 2006-01-02: exactly four year digits, a
hyphen, two month digits, a hyphen, two day digits, nothing else;
month and day must be in calendar range. -/
def parseDate (s : String) : Option GoDate :=
  match s.data with
  | [y1, y2, y3, y4, '-', m1, m2, '-', d1, d2] =>
    if ([y1, y2, y3, y4, m1, m2, d1, d2].all isDigitChar) then
      let y := ((digitV y1 * 10 + digitV y2) * 10 + digitV y3) * 10 + digitV y4
      let m := digitV m1 * 10 + digitV m2
      let d := digitV d1 * 10 + digitV d2
      if 1 ≤ m ∧ m ≤ 12 ∧ 1 ≤ d ∧ d ≤ daysInMonth y m then some ⟨y, m, d⟩ else none
    else none
  | _ => none

/- FormatTraktListName and its helpers. -/

/-- unicode.IsSpace as exercised by strings.Fields, restricted to the
ASCII range (code points: tab 9, newline 10, vertical tab 11, form
feed 12, carriage return 13, space 32). -/
def isGoSpace (c : Char) : Bool :=
  decide (c.toNat = 9 ∨ c.toNat = 10 ∨ c.toNat = 11 ∨ c.toNat = 12 ∨
    c.toNat = 13 ∨ c.toNat = 32)

/-- Characters kept by the regexp replacement: the complement of the
pattern [^-a-z0-9]+, i.e. hyphen (45), a..z (97..122), 0..9 (48..57). -/
def isSlugChar (c : Char) : Bool :=
  decide (c.toNat = 45 ∨ (97 ≤ c.toNat ∧ c.toNat ≤ 122) ∨
    (48 ≤ c.toNat ∧ c.toNat ≤ 57))

/-- strings.Fields: split into maximal runs of non-space characters.
The accumulator holds the current run, reversed. -/
def fieldsAux : List Char → List Char → List (List Char)
  | [], acc => if acc.isEmpty then [] else [acc.reverse]
  | c :: cs, acc =>
    if isGoSpace c then
      if acc.isEmpty then fieldsAux cs [] else acc.reverse :: fieldsAux cs []
    else fieldsAux cs (c :: acc)

/-- strings.Fields on a character list. -/
def goFields (cs : List Char) : List (List Char) := fieldsAux cs []

/-- strings.Join with separator "-". -/
def joinHyphen : List (List Char) → List Char
  | [] => []
  | [w] => w
  | w :: ws => w ++ '-' :: joinHyphen ws

/-- FormatTraktListName from imdb.go: lower-case the hyphen-join of
the whitespace-separated fields, then delete every character matching
[^-a-z0-9].  strings.ToLower is modelled on the ASCII range by
Char.toLower (every character it would change outside that range is
deleted by the regexp replacement anyway, except exotic case pairs
that no claim exercises). -/
def FormatTraktListName (imdbListName : String) : String :=
  String.mk (((joinHyphen (goFields imdbListName.data)).map Char.toLower).filter isSlugChar)

/- The client operations. -/

/-- doRequest from imdb.go.  http.NewRequest failure is wrapped and
returned.  On http.Client.Do failure the source formats the message
with res.Request.URL while res is nil, a nil pointer dereference:
embedded as crash.  A 200 or 404 response is returned to the caller;
403 yields the authorization ImdbError; any other status yields the
unexpected-status ImdbError.  The marshalling of params.Body (never
non-nil in this client) is modelled as always succeeding. -/
def doRequest (net : Network) (params : requestParams) : GoResult HttpResponse :=
  let url := imdbPathBase ++ params.Path
  match net params with
  | .newReqErr cause =>
    .err (.wrapped ("failure creating http request " ++ params.Method ++ " " ++ url) cause)
  | .doErr _ => .crash
  | .ok res =>
    if res.StatusCode = 200 then .ok res
    else if res.StatusCode = 403 then
      .err (.imdbError params.Method url res.StatusCode
        "imdb authorization failure - update the imdb cookie values")
    else if res.StatusCode = 404 then .ok res
    else
      .err (.imdbError params.Method url res.StatusCode
        ("unexpected status code " ++ toString res.StatusCode))

/-- The list-mode loop of readResponse: every record after the header
contributes one item with Id from column 1 and TitleType from column 7;
a record too short for those indexes is an index-out-of-range crash. -/
def listModeItems : List (List String) → GoResult (List ImdbItem)
  | [] => .ok []
  | r :: rs =>
    match r.get? 1, r.get? 7 with
    | some id, some tt =>
      match listModeItems rs with
      | .ok items => .ok (⟨id, tt, none, none⟩ :: items)
      | other => other
    | _, _ => .crash

/-- The rating-mode loop of readResponse, in source evaluation order:
column 1 through strconv.Atoi (log.Fatalf on error), column 2 through
time.Parse (log.Fatalf on error), then the item literal reading
columns 0 and 5. -/
def ratingModeItems : List (List String) → GoResult (List ImdbItem)
  | [] => .ok []
  | r :: rs =>
    match r.get? 1 with
    | none => .crash
    | some ratingStr =>
      match atoi ratingStr with
      | none => .fatal
      | some rating =>
        match r.get? 2 with
        | none => .crash
        | some dateStr =>
          match parseDate dateStr with
          | none => .fatal
          | some ratingDate =>
            match r.get? 0, r.get? 5 with
            | some id, some tt =>
              match ratingModeItems rs with
              | .ok items => .ok (⟨id, tt, some rating, some ratingDate⟩ :: items)
              | other => other
            | _, _ => .crash

/-- strings.Split(s, ".")[0]: the prefix of s before the first dot
(Split never returns an empty slice, so index 0 is safe). -/
def firstDotSegment (s : String) : String :=
  String.mk (s.data.takeWhile (fun c => c ≠ '.'))

/-- readResponse from imdb.go.  A csv.Reader.ReadAll error is
log.Fatalf.  In list mode the record loop runs first (skipping the
record at index 0), then the Content-Disposition header is read:
an empty header, a mime.ParseMediaType error or an empty parameter
map are log.Fatalf; otherwise the list name is the segment of the
filename parameter before the first dot.  In rating mode the name
stays nil.  An unknown resType is log.Fatalf. -/
def readResponse (res : HttpResponse) (resType : String) :
    GoResult (Option String × List ImdbItem) :=
  match res.csvData with
  | none => .fatal
  | some csvData =>
    if resType = resourceTypeList then
      match listModeItems (csvData.drop 1) with
      | .ok items =>
        match res.contentDisposition with
        | .absent => .fatal
        | .unparsable => .fatal
        | .parsed params =>
          if params.isEmpty then .fatal
          else
            .ok (some (firstDotSegment ((params.lookup "filename").getD "")), items)
      | .err e => .err e
      | .crash => .crash
      | .fatal => .fatal
    else if resType = resourceTypeRating then
      match ratingModeItems (csvData.drop 1) with
      | .ok items => .ok (none, items)
      | .err e => .err e
      | .crash => .crash
      | .fatal => .fatal
    else .fatal

/-- ListItemsGet from imdb.go: fetch the export of listId; wrap any
doRequest error; on a 404 response return the ResourceNotFoundError
carrying the list id; otherwise read the response in list mode. -/
def ListItemsGet (net : Network) (listId : String) :
    GoResult (Option String × List ImdbItem) :=
  match doRequest net ⟨"GET", imdbPathListExport listId, none⟩ with
  | .err e => .err (.wrapped ("failure trying to retrieve imdb list " ++ listId) e)
  | .crash => .crash
  | .fatal => .fatal
  | .ok res =>
    if res.StatusCode = 404 then
      .err (.resourceNotFound resourceTypeList (some listId))
    else readResponse res resourceTypeList

/-- WatchlistGet from imdb.go: fetch the export of the configured
watchlist id through the same path template; on 404 return the
ResourceNotFoundError of kind watchlist carrying that id; otherwise
read the response in list mode, discard the derived name, and return
the configured watchlist id as the name. -/
def WatchlistGet (net : Network) (watchlistId : String) :
    GoResult (Option String × List ImdbItem) :=
  match doRequest net ⟨"GET", imdbPathListExport watchlistId, none⟩ with
  | .err e =>
    .err (.wrapped ("failure trying to retrieve imdb watchlist " ++ watchlistId) e)
  | .crash => .crash
  | .fatal => .fatal
  | .ok res =>
    if res.StatusCode = 404 then
      .err (.resourceNotFound resourceTypeWatchlist (some watchlistId))
    else
      match readResponse res resourceTypeList with
      | .ok (_, list) => .ok (some watchlistId, list)
      | .err e => .err e
      | .crash => .crash
      | .fatal => .fatal

/-- RatingsGet from imdb.go: fetch the ratings export of the
configured user id; on 404 return the ResourceNotFoundError of kind
rating (no id); otherwise read the response in rating mode. -/
def RatingsGet (net : Network) (userId : String) : GoResult (List ImdbItem) :=
  match doRequest net ⟨"GET", imdbPathRatingsExport userId, none⟩ with
  | .err e => .err (.wrapped "failure trying to retrieve imdb ratings" e)
  | .crash => .crash
  | .fatal => .fatal
  | .ok res =>
    if res.StatusCode = 404 then
      .err (.resourceNotFound resourceTypeRating none)
    else
      match readResponse res resourceTypeRating with
      | .ok (_, ratings) => .ok ratings
      | .err e => .err e
      | .crash => .crash
      | .fatal => .fatal

/-- UserIdScrape from imdb.go: GET the profile page (any 200 or 404
response body is parsed), wrap a goquery parse failure, and read the
data-userid attribute of the .user-profile.userId selection; a missing
attribute is the scrape error.  The scraped id (assigned to
c.config.UserId in the source) is the result value. -/
def UserIdScrape (net : Network) : GoResult String :=
  match doRequest net ⟨"GET", imdbPathProfile, none⟩ with
  | .err e => .err (.wrapped "failure trying to scrape imdb user id" e)
  | .crash => .crash
  | .fatal => .fatal
  | .ok res =>
    if res.html.parseOk then
      match res.html.userIdAttr with
      | none => .err (.basic "failure scraping imdb profile: user id not found")
      | some userId => .ok userId
    else
      .err (.wrapped "failure creating goquery document from imdb response"
        (.basic "html parse failure"))

/-- WatchlistIdScrape from imdb.go: GET the watchlist page, wrap a
goquery parse failure, and read the content attribute of the
meta[property=pageId] selection; a missing attribute is the scrape
error.  The scraped id is the result value. -/
def WatchlistIdScrape (net : Network) : GoResult String :=
  match doRequest net ⟨"GET", imdbPathWatchlist, none⟩ with
  | .err e => .err (.wrapped "failure trying to scrape imdb watchlist id" e)
  | .crash => .crash
  | .fatal => .fatal
  | .ok res =>
    if res.html.parseOk then
      match res.html.watchlistIdAttr with
      | none => .err (.basic "failure scraping imdb profile: watchlist id not found")
      | some watchlistId => .ok watchlistId
    else
      .err (.wrapped "failure creating goquery document from imdb response"
        (.basic "html parse failure"))

/-- The body of the .user-list Each callback of ListsScrape, iterated
over the id attributes in document order.  An element without an id
attribute is skipped (the source logs and returns from the callback).
For an element with id, ListItemsGet runs; a ResourceNotFoundError
anywhere in the error chain skips the element; any OTHER error falls
through to the DataPair literal, which dereferences the nil
imdbListName pointer: a crash.  On success one DataPair is appended,
with the Trakt slug derived from the list name. -/
def listsScrapeEach (net : Network) : List (Option String) → GoResult (List DataPair)
  | [] => .ok []
  | none :: rest => listsScrapeEach net rest
  | some imdbListId :: rest =>
    match ListItemsGet net imdbListId with
    | .err e =>
      if isResourceNotFound e then listsScrapeEach net rest else .crash
    | .crash => .crash
    | .fatal => .fatal
    | .ok (imdbListName, imdbList) =>
      match imdbListName with
      | none => .crash
      | some listName =>
        match listsScrapeEach net rest with
        | .ok rest2 =>
          .ok (⟨imdbList, imdbListId, listName, FormatTraktListName listName⟩ :: rest2)
        | other => other

/-- ListsScrape from imdb.go: GET the lists page of the user id, wrap
any doRequest error, wrap a goquery parse failure, then run the Each
callback over every .user-list selection. -/
def ListsScrape (net : Network) (userId : String) : GoResult (List DataPair) :=
  match doRequest net ⟨"GET", imdbPathLists userId, none⟩ with
  | .err e => .err (.wrapped "failure trying to scrape imdb lists" e)
  | .crash => .crash
  | .fatal => .fatal
  | .ok res =>
    if res.html.parseOk then listsScrapeEach net res.html.userListIds
    else
      .err (.wrapped "failure creating goquery document from imdb response"
        (.basic "html parse failure"))

/-- Hydrate from imdb.go: scrape the user id only when the configured
user id is empty or the sentinel string scrape, then always scrape the
watchlist id; either failure aborts with a wrapping error.  The source
mutates c.config; the embedding returns the updated config. -/
def Hydrate (net : Network) (config : ImdbConfig) : GoResult ImdbConfig :=
  let afterUser : GoResult ImdbConfig :=
    if config.UserId = "" ∨ config.UserId = "scrape" then
      match UserIdScrape net with
      | .ok userId => .ok { config with UserId := userId }
      | .err e => .err (.wrapped "failure scraping imdb user id" e)
      | .crash => .crash
      | .fatal => .fatal
    else .ok config
  match afterUser with
  | .ok config2 =>
    match WatchlistIdScrape net with
    | .ok watchlistId => .ok { config2 with WatchlistId := watchlistId }
    | .err e => .err (.wrapped "failure scraping imdb watchlist id" e)
    | .crash => .crash
    | .fatal => .fatal
  | other => other

/-- setupCookieJar from imdb.go: the jar holds the at-main and
ubid-main cookies for the IMDb origin.  Parsing the constant base URL
and creating the jar cannot fail, so no error case arises. -/
def setupCookieJar (config : ImdbConfig) : List (String × String) :=
  [("at-main", config.CookieAtMain), ("ubid-main", config.CookieUbidMain)]

/-- NewImdbClient from imdb.go: build the cookie jar, then hydrate;
a hydration failure is wrapped and aborts construction.  The client
identity is the hydrated config. -/
def NewImdbClient (net : Network) (config : ImdbConfig) : GoResult ImdbConfig :=
  match Hydrate net config with
  | .ok config2 => .ok config2
  | .err e => .err (.wrapped "failure hydrating imdb client" e)
  | .crash => .crash
  | .fatal => .fatal

/- Concrete environments used by counterexamples and witnesses. -/

/-- A list-mode CSV export body: a header row and one data row with at
least eight columns (Id in column 1, TitleType in column 7). -/
def csvListBody : List (List String) :=
  [["Position", "Const", "Created", "Modified", "Description", "Item", "URL", "Title Type"],
   ["1", "tt0111161", "a", "b", "c", "d", "e", "movie"]]

/-- A parsed Content-Disposition header with filename parameter. -/
def cdOk : CDHeader := CDHeader.parsed [("filename", "My List.csv")]

/-- A successful list-export response. -/
def listExportRes : HttpResponse := ⟨200, cdOk, some csvListBody, emptyHtml⟩

/-- A plain 404 response. -/
def notFoundRes : HttpResponse := ⟨404, CDHeader.absent, none, emptyHtml⟩

/-- A plain 403 response. -/
def forbiddenRes : HttpResponse := ⟨403, CDHeader.absent, none, emptyHtml⟩

/-- Network where the lists page of user ur1 holds one list (ls1) and
every other request, in particular the export of ls1, returns 403. -/
def netLists403 : Network := fun p =>
  if p.Path = imdbPathLists "ur1" then
    .ok ⟨200, CDHeader.absent, none, ⟨true, none, none, [some "ls1"]⟩⟩
  else .ok forbiddenRes

/-- Network where every request returns 403. -/
def netAll403 : Network := fun _ => .ok forbiddenRes

/-- Network where the lists page of user ur9 holds lsA and lsB, the
export of lsA is 404 and the export of lsB succeeds. -/
def netEnum404 : Network := fun p =>
  if p.Path = imdbPathLists "ur9" then
    .ok ⟨200, CDHeader.absent, none, ⟨true, none, none, [some "lsA", some "lsB"]⟩⟩
  else if p.Path = imdbPathListExport "lsA" then .ok notFoundRes
  else if p.Path = imdbPathListExport "lsB" then .ok listExportRes
  else .ok notFoundRes

/-- Network where http.Client.Do fails on every request. -/
def netDoFail : Network := fun _ => .doErr (.basic "connection refused")

/-- Network where http.NewRequest fails on every request. -/
def netNewReqFail : Network := fun _ => .newReqErr (.basic "invalid method")

/-- Network of the hydration scenario: the profile page carries
data-userid ur12345, the watchlist page carries the pageId meta
content ls99999. -/
def mockNet : Network := fun p =>
  if p.Path = imdbPathProfile then
    .ok ⟨200, CDHeader.absent, none, ⟨true, some "ur12345", none, []⟩⟩
  else if p.Path = imdbPathWatchlist then
    .ok ⟨200, CDHeader.absent, none, ⟨true, none, some "ls99999", []⟩⟩
  else .ok notFoundRes

/-- mockNet with a different profile page (data-userid ur00000). -/
def mockNetAltProfile : Network := fun p =>
  if p.Path = imdbPathProfile then
    .ok ⟨200, CDHeader.absent, none, ⟨true, some "ur00000", none, []⟩⟩
  else mockNet p

/-- Network where the watchlist export succeeds but the response has
no Content-Disposition header. -/
def netNoHeader : Network := fun _ =>
  .ok ⟨200, CDHeader.absent, some csvListBody, emptyHtml⟩

/-- A rating-mode CSV export body: a header row and the data row of
the spec scenario (columns 0, 1, 2, 5 populated). -/
def csvRatingBody : List (List String) :=
  [["Const", "Your Rating", "Date Rated", "Title", "URL", "Title Type"],
   ["tt0111161", "9", "2020-05-01", "", "", "movie"]]

/-- A successful ratings-export response. -/
def ratingExportRes : HttpResponse := ⟨200, CDHeader.absent, some csvRatingBody, emptyHtml⟩

/- Helper lemmas about the slug pipeline. -/

lemma slugChar_not_space {c : Char} (h : isSlugChar c = true) : isGoSpace c = false := by
  simp only [isSlugChar, decide_eq_true_eq] at h
  simp only [isGoSpace, decide_eq_false_iff_not]
  omega

lemma slugChar_toLower {c : Char} (h : isSlugChar c = true) : c.toLower = c := by
  simp only [isSlugChar, decide_eq_true_eq] at h
  unfold Char.toLower
  rw [if_neg]
  omega

lemma fieldsAux_no_space (cs : List Char) (acc : List Char)
    (h : ∀ c ∈ cs, isGoSpace c = false) :
    fieldsAux cs acc =
      if (acc.reverse ++ cs).isEmpty then [] else [acc.reverse ++ cs] := by
  induction cs generalizing acc with
  | nil => simp [fieldsAux]
  | cons c cs ih =>
    have hc : isGoSpace c = false := h c (List.mem_cons_self c cs)
    have hrest : ∀ x ∈ cs, isGoSpace x = false := fun x hx => h x (List.mem_cons_of_mem c hx)
    simp only [fieldsAux, hc, Bool.false_eq_true, if_false, ih (c :: acc) hrest,
      List.reverse_cons, List.append_assoc, List.cons_append, List.nil_append]

lemma goFields_no_space (cs : List Char) (h : ∀ c ∈ cs, isGoSpace c = false) :
    goFields cs = if cs.isEmpty then [] else [cs] := by
  have := fieldsAux_no_space cs [] h
  simpa [goFields] using this

lemma map_toLower_slug (l : List Char) (h : ∀ c ∈ l, isSlugChar c = true) :
    l.map Char.toLower = l := by
  induction l with
  | nil => rfl
  | cons c cs ih =>
    simp only [List.map_cons, slugChar_toLower (h c (List.mem_cons_self c cs)),
      ih (fun x hx => h x (List.mem_cons_of_mem c hx))]

lemma formatChars_fix (l : List Char) (h : ∀ c ∈ l, isSlugChar c = true) :
    ((joinHyphen (goFields l)).map Char.toLower).filter isSlugChar = l := by
  have hns : ∀ c ∈ l, isGoSpace c = false := fun c hc => slugChar_not_space (h c hc)
  rw [goFields_no_space l hns]
  by_cases hl : l = []
  · subst hl; rfl
  · have hne : l.isEmpty = false := by simp [List.isEmpty_iff, hl]
    rw [hne]
    show ((joinHyphen [l]).map Char.toLower).filter isSlugChar = l
    have hj : joinHyphen [l] = l := rfl
    rw [hj, map_toLower_slug l h, List.filter_eq_self.mpr h]

/-- C7: FormatTraktListName is a pure function (a plain Lean def, so
purity and determinism are by construction), it is idempotent, and
every character of its output lies in the set [a-z0-9-]. -/
theorem formatTraktListName_idempotent_and_charset (s : String) :
    FormatTraktListName (FormatTraktListName s) = FormatTraktListName s ∧
      (FormatTraktListName s).data.all isSlugChar = true := by
  have hall : ∀ c ∈ ((joinHyphen (goFields s.data)).map Char.toLower).filter isSlugChar,
      isSlugChar c = true := fun c hc => List.of_mem_filter hc
  constructor
  · exact congrArg String.mk
      (formatChars_fix (((joinHyphen (goFields s.data)).map Char.toLower).filter isSlugChar) hall)
  · rw [List.all_eq_true]
    exact fun c hc => List.of_mem_filter hc

/-- C9: the slug derivation on the two concrete display names of the
spec: it lower-cases, joins whitespace-separated words with hyphens
and strips the stray punctuation. -/
theorem formatTraktListName_examples :
    FormatTraktListName "Sci-Fi Favourites!" = "sci-fi-favourites" ∧
      FormatTraktListName "  My   List  " = "my-list" := by
  exact ⟨by decide, by decide⟩

/-- C1: a 403 response does yield the authorization ImdbError in the
direct operations (direct list retrieval, watchlist retrieval, ratings
retrieval, both identity scrapes, and the lists-page fetch), but NOT
in the per-list materialization of ListsScrape: there the non-404
error from ListItemsGet falls through the ResourceNotFoundError check
and the DataPair literal dereferences the nil imdbListName pointer,
so the enumeration crashes instead of surfacing the error.  Evaluated
at a network whose lists page holds one list and whose every other
request returns 403. -/
theorem imdb403_perList_crash :
    ListItemsGet netLists403 "ls1" =
      .err (.wrapped "failure trying to retrieve imdb list ls1"
        (.imdbError "GET" "https://www.imdb.com/list/ls1/export" 403
          "imdb authorization failure - update the imdb cookie values")) ∧
    WatchlistGet netAll403 "ls9" =
      .err (.wrapped "failure trying to retrieve imdb watchlist ls9"
        (.imdbError "GET" "https://www.imdb.com/list/ls9/export" 403
          "imdb authorization failure - update the imdb cookie values")) ∧
    RatingsGet netAll403 "ur1" =
      .err (.wrapped "failure trying to retrieve imdb ratings"
        (.imdbError "GET" "https://www.imdb.com/user/ur1/ratings/export" 403
          "imdb authorization failure - update the imdb cookie values")) ∧
    UserIdScrape netAll403 =
      .err (.wrapped "failure trying to scrape imdb user id"
        (.imdbError "GET" "https://www.imdb.com/profile" 403
          "imdb authorization failure - update the imdb cookie values")) ∧
    WatchlistIdScrape netAll403 =
      .err (.wrapped "failure trying to scrape imdb watchlist id"
        (.imdbError "GET" "https://www.imdb.com/watchlist" 403
          "imdb authorization failure - update the imdb cookie values")) ∧
    ListsScrape netAll403 "ur1" =
      .err (.wrapped "failure trying to scrape imdb lists"
        (.imdbError "GET" "https://www.imdb.com/user/ur1/lists" 403
          "imdb authorization failure - update the imdb cookie values")) ∧
    ListsScrape netLists403 "ur1" = GoResult.crash := by
  refine ⟨by decide, by decide, by decide, by decide, by decide, by decide, by decide⟩

/-- C6: on http.NewRequest failure doRequest returns the wrapping
transport error, but on http.Client.Do failure the source formats the
error message through res.Request.URL while res is nil, so doRequest
crashes with a nil pointer dereference instead of returning the
wrapped transport error. -/
theorem doRequest_transport_crash :
    doRequest netNewReqFail ⟨"GET", imdbPathProfile, none⟩ =
      .err (.wrapped "failure creating http request GET https://www.imdb.com/profile"
        (.basic "invalid method")) ∧
    doRequest netDoFail ⟨"GET", imdbPathProfile, none⟩ = GoResult.crash := by
  exact ⟨by decide, by decide⟩

/-- C2: a 404 on the export of a requested list id yields the
ResourceNotFoundError carrying that id; inside the enumeration loop of
ListsScrape such an error is swallowed (the element contributes no
DataPair and the loop continues with the remaining identifiers); and
ListsScrape runs that loop over all enumerated identifiers of the
lists page. -/
theorem listItemsGet_404_and_enumeration_skip :
    (∀ (net : Network) (listId : String) (res : HttpResponse),
       net ⟨"GET", imdbPathListExport listId, none⟩ = .ok res →
       res.StatusCode = 404 →
       ListItemsGet net listId = .err (.resourceNotFound resourceTypeList (some listId))) ∧
    (∀ (net : Network) (listId : String) (rest : List (Option String)) (e : GoErrorV),
       ListItemsGet net listId = .err e → isResourceNotFound e = true →
       listsScrapeEach net (some listId :: rest) = listsScrapeEach net rest) ∧
    (∀ (net : Network) (userId : String) (res : HttpResponse),
       net ⟨"GET", imdbPathLists userId, none⟩ = .ok res →
       res.StatusCode = 200 → res.html.parseOk = true →
       ListsScrape net userId = listsScrapeEach net res.html.userListIds) := by
  refine ⟨?_, ?_, ?_⟩
  · intro net listId res hnet hsc
    simp [ListItemsGet, doRequest, hnet, hsc]
  · intro net listId rest e hget hrnf
    simp [listsScrapeEach, hget, hrnf]
  · intro net userId res hnet hsc hparse
    simp [ListsScrape, doRequest, hnet, hsc, hparse]

/-- Witness for C2 at the network netEnum404: the export of lsA is
404, the element for lsA is skipped and lsB is still processed, and
ListsScrape reduces to the loop over the two enumerated identifiers. -/
theorem listItemsGet_404_and_enumeration_skip_witness :
    ListItemsGet netEnum404 "lsA" =
      .err (.resourceNotFound resourceTypeList (some "lsA")) ∧
    listsScrapeEach netEnum404 [some "lsA", some "lsB"] =
      listsScrapeEach netEnum404 [some "lsB"] ∧
    ListsScrape netEnum404 "ur9" = listsScrapeEach netEnum404 [some "lsA", some "lsB"] := by
  refine ⟨?_, ?_, ?_⟩
  · exact listItemsGet_404_and_enumeration_skip.1 netEnum404 "lsA" notFoundRes
      (by decide) (by decide)
  · exact listItemsGet_404_and_enumeration_skip.2.1 netEnum404 "lsA" [some "lsB"]
      (.resourceNotFound resourceTypeList (some "lsA")) (by decide) (by decide)
  · exact listItemsGet_404_and_enumeration_skip.2.2 netEnum404 "ur9"
      ⟨200, CDHeader.absent, none, ⟨true, none, none, [some "lsA", some "lsB"]⟩⟩
      (by decide) (by decide) (by decide)

lemma watchlistIdScrape_congr (net net2 : Network)
    (h : net2 ⟨"GET", imdbPathWatchlist, none⟩ = net ⟨"GET", imdbPathWatchlist, none⟩) :
    WatchlistIdScrape net2 = WatchlistIdScrape net := by
  simp only [WatchlistIdScrape, doRequest, h]

/-- C3 counterexample: the sentinel of the code is the string scrape,
not auto-detect.  Constructing against pages exposing
data-userid ur12345 and pageId content ls99999 with the user id
auto-detect keeps the user id auto-detect: the user-id scrape is
skipped even though the profile page would have yielded ur12345, so
the claimed identity (userId ur12345) is not produced. -/
theorem hydrate_autodetect_counterexample :
    NewImdbClient mockNet ⟨"tokA", "tokB", "auto-detect", ""⟩ =
      .ok ⟨"tokA", "tokB", "auto-detect", "ls99999"⟩ ∧
    ("auto-detect" : String) ≠ "ur12345" ∧
    UserIdScrape mockNet = .ok "ur12345" := by
  exact ⟨by decide, by decide, by decide⟩

/-- C3 amended: the user-id scrape runs exactly when the supplied user
id is empty or equals the sentinel string scrape and is skipped for
any other value (the result does not even depend on the profile page),
while the watchlist-id scrape always runs; constructing with valid
tokens and userId scrape against pages exposing data-userid ur12345
and pageId content ls99999 yields the identity
userId ur12345, watchlistId ls99999. -/
theorem hydrate_sentinel_scrape :
    (∀ (net net2 : Network) (config : ImdbConfig),
       config.UserId ≠ "" → config.UserId ≠ "scrape" →
       (∀ p : requestParams, p.Path ≠ imdbPathProfile → net2 p = net p) →
       Hydrate net2 config = Hydrate net config) ∧
    (∀ (net : Network) (config configOut : ImdbConfig),
       Hydrate net config = .ok configOut →
       WatchlistIdScrape net = .ok configOut.WatchlistId ∧
       ((config.UserId = "" ∨ config.UserId = "scrape") →
          UserIdScrape net = .ok configOut.UserId) ∧
       (config.UserId ≠ "" → config.UserId ≠ "scrape" →
          configOut.UserId = config.UserId) ∧
       configOut.CookieAtMain = config.CookieAtMain ∧
       configOut.CookieUbidMain = config.CookieUbidMain) ∧
    NewImdbClient mockNet ⟨"tokA", "tokB", "scrape", ""⟩ =
      .ok ⟨"tokA", "tokB", "ur12345", "ls99999"⟩ := by
  refine ⟨?_, ?_, by decide⟩
  · intro net net2 config h1 h2 hagree
    have hw : net2 ⟨"GET", imdbPathWatchlist, none⟩ = net ⟨"GET", imdbPathWatchlist, none⟩ :=
      hagree _ (by decide)
    have hcond : ¬(config.UserId = "" ∨ config.UserId = "scrape") := by
      rintro (h | h)
      · exact h1 h
      · exact h2 h
    simp only [Hydrate, if_neg hcond, watchlistIdScrape_congr net net2 hw]
  · intro net config configOut h
    by_cases hc : config.UserId = "" ∨ config.UserId = "scrape"
    · simp only [Hydrate, if_pos hc] at h
      cases hu : UserIdScrape net with
      | ok uid =>
        rw [hu] at h
        cases hw : WatchlistIdScrape net with
        | ok wid =>
          rw [hw] at h
          cases h
          refine ⟨rfl, fun _ => rfl, ?_, rfl, rfl⟩
          intro h1 h2
          cases hc with
          | inl hx => exact absurd hx h1
          | inr hx => exact absurd hx h2
        | err e => rw [hw] at h; simp at h
        | crash => rw [hw] at h; simp at h
        | fatal => rw [hw] at h; simp at h
      | err e => rw [hu] at h; simp at h
      | crash => rw [hu] at h; simp at h
      | fatal => rw [hu] at h; simp at h
    · simp only [Hydrate, if_neg hc] at h
      cases hw : WatchlistIdScrape net with
      | ok wid =>
        rw [hw] at h
        cases h
        exact ⟨rfl, fun hson => absurd hson hc, fun _ _ => rfl, rfl, rfl⟩
      | err e => rw [hw] at h; simp at h
      | crash => rw [hw] at h; simp at h
      | fatal => rw [hw] at h; simp at h

/-- Witness for C3 amended: skipping at a concrete non-sentinel id
(the hydration result ignores a changed profile page), the
always-running watchlist scrape, and the concrete construction with
the sentinel scrape. -/
theorem hydrate_sentinel_scrape_witness :
    Hydrate mockNetAltProfile ⟨"tokA", "tokB", "ur777", ""⟩ =
      Hydrate mockNet ⟨"tokA", "tokB", "ur777", ""⟩ ∧
    WatchlistIdScrape mockNet = .ok "ls99999" ∧
    NewImdbClient mockNet ⟨"tokA", "tokB", "scrape", ""⟩ =
      .ok ⟨"tokA", "tokB", "ur12345", "ls99999"⟩ := by
  refine ⟨?_, ?_, hydrate_sentinel_scrape.2.2⟩
  · exact hydrate_sentinel_scrape.1 mockNet mockNetAltProfile ⟨"tokA", "tokB", "ur777", ""⟩
      (by decide) (by decide) (fun p hp => by simp only [mockNetAltProfile, if_neg hp])
  · exact (hydrate_sentinel_scrape.2.1 mockNet ⟨"tokA", "tokB", "ur777", ""⟩
      ⟨"tokA", "tokB", "ur777", "ls99999"⟩ (by decide)).1

lemma get?_eq_some_getD (l : List String) (i : Nat) (h : i < l.length) :
    l.get? i = some (l.getD i "") := by
  simp [List.get?_eq_getElem?, List.getD_eq_getElem?_getD, List.getElem?_eq_getElem h]

lemma listModeItems_wf (rows : List (List String)) (h : ∀ r ∈ rows, 8 ≤ r.length) :
    listModeItems rows =
      .ok (rows.map fun r => ⟨r.getD 1 "", r.getD 7 "", none, none⟩) := by
  induction rows with
  | nil => rfl
  | cons r rs ih =>
    have hr := h r (List.mem_cons_self r rs)
    simp only [listModeItems, get?_eq_some_getD r 1 (by omega),
      get?_eq_some_getD r 7 (by omega),
      ih (fun x hx => h x (List.mem_cons_of_mem r hx)), List.map_cons]

lemma listModeItems_rating_none :
    ∀ (rows : List (List String)) (items : List ImdbItem),
      listModeItems rows = .ok items →
      ∀ it ∈ items, it.Rating = none ∧ it.RatingDate = none := by
  intro rows
  induction rows with
  | nil =>
    intro items h it hit
    simp only [listModeItems] at h
    cases h
    cases hit
  | cons r rs ih =>
    intro items h it hit
    simp only [listModeItems] at h
    cases h1 : r.get? 1 with
    | none => rw [h1] at h; cases h
    | some a =>
      cases h7 : r.get? 7 with
      | none => rw [h1, h7] at h; cases h
      | some b =>
        rw [h1, h7] at h
        cases hrec : listModeItems rs with
        | ok items2 =>
          rw [hrec] at h
          cases h
          cases hit with
          | head => exact ⟨rfl, rfl⟩
          | tail _ hmem => exact ih items2 hrec it hmem
        | err e => rw [hrec] at h; cases h
        | crash => rw [hrec] at h; cases h
        | fatal => rw [hrec] at h; cases h

lemma ratingModeItems_rated :
    ∀ (rows : List (List String)) (items : List ImdbItem),
      ratingModeItems rows = .ok items →
      ∀ it ∈ items, it.Rating.isSome = true ∧ it.RatingDate.isSome = true := by
  intro rows
  induction rows with
  | nil =>
    intro items h it hit
    simp only [ratingModeItems] at h
    cases h
    cases hit
  | cons r rs ih =>
    intro items h it hit
    simp only [ratingModeItems] at h
    cases h1 : r.get? 1 with
    | none => simp only [h1] at h; cases h
    | some rstr =>
      simp only [h1] at h
      cases hat : atoi rstr with
      | none => simp only [hat] at h; cases h
      | some rating =>
        simp only [hat] at h
        cases h2 : r.get? 2 with
        | none => simp only [h2] at h; cases h
        | some dateStr =>
          simp only [h2] at h
          cases hpd : parseDate dateStr with
          | none => simp only [hpd] at h; cases h
          | some d =>
            simp only [hpd] at h
            cases h0 : r.get? 0 with
            | none => simp only [h0] at h; cases h
            | some id =>
              cases h5 : r.get? 5 with
              | none => simp only [h0, h5] at h; cases h
              | some tt =>
                simp only [h0, h5] at h
                cases hrec : ratingModeItems rs with
                | ok items2 =>
                  simp only [hrec] at h
                  cases h
                  cases hit with
                  | head => exact ⟨rfl, rfl⟩
                  | tail _ hmem => exact ih items2 hrec it hmem
                | err e => simp only [hrec] at h; cases h
                | crash => simp only [hrec] at h; cases h
                | fatal => simp only [hrec] at h; cases h

lemma readResponse_list_items (res : HttpResponse) (name : Option String)
    (items : List ImdbItem)
    (h : readResponse res resourceTypeList = .ok (name, items)) :
    ∃ rows, res.csvData = some rows ∧ listModeItems (rows.drop 1) = .ok items := by
  cases hcsv : res.csvData with
  | none => simp only [readResponse, hcsv] at h; cases h
  | some rows =>
    simp only [readResponse, hcsv] at h
    rw [if_pos trivial] at h
    cases hlist : listModeItems (rows.drop 1) with
    | ok items2 =>
      simp only [hlist] at h
      cases hcd : res.contentDisposition with
      | absent => simp only [hcd] at h; cases h
      | unparsable => simp only [hcd] at h; cases h
      | parsed params =>
        simp only [hcd] at h
        by_cases hemp : params.isEmpty = true
        · rw [if_pos hemp] at h; cases h
        · rw [if_neg hemp] at h
          cases h
          exact ⟨rows, rfl, hlist⟩
    | err e => simp only [hlist] at h; cases h
    | crash => simp only [hlist] at h; cases h
    | fatal => simp only [hlist] at h; cases h

lemma readResponse_rating_items (res : HttpResponse) (name : Option String)
    (items : List ImdbItem)
    (h : readResponse res resourceTypeRating = .ok (name, items)) :
    name = none ∧
      ∃ rows, res.csvData = some rows ∧ ratingModeItems (rows.drop 1) = .ok items := by
  cases hcsv : res.csvData with
  | none => simp only [readResponse, hcsv] at h; cases h
  | some rows =>
    simp only [readResponse, hcsv] at h
    rw [if_neg (by decide), if_pos trivial] at h
    cases hrat : ratingModeItems (rows.drop 1) with
    | ok items2 =>
      simp only [hrat] at h
      cases h
      exact ⟨rfl, rows, rfl, hrat⟩
    | err e => simp only [hrat] at h; cases h
    | crash => simp only [hrat] at h; cases h
    | fatal => simp only [hrat] at h; cases h

lemma readResponse_other_fatal (res : HttpResponse) (resType : String)
    (hL : resType ≠ resourceTypeList) (hR : resType ≠ resourceTypeRating) :
    readResponse res resType = .fatal := by
  cases hcsv : res.csvData with
  | none => simp only [readResponse, hcsv]
  | some rows => simp only [readResponse, hcsv, if_neg hL, if_neg hR]

/-- C4: in rating mode, every data row yields externalId from column
0, an integer rating from column 1, a YYYY-MM-DD date from column 2
and titleType from column 5; an integer or date parse failure is fatal;
and the concrete row of the spec yields exactly the claimed item. -/
theorem ratingMode_columns :
    (∀ (r : List String) (rs : List (List String)), 6 ≤ r.length →
       atoi (r.getD 1 "") = none → ratingModeItems (r :: rs) = .fatal) ∧
    (∀ (r : List String) (rs : List (List String)) (v : Int), 6 ≤ r.length →
       atoi (r.getD 1 "") = some v → parseDate (r.getD 2 "") = none →
       ratingModeItems (r :: rs) = .fatal) ∧
    (∀ (r : List String) (rs : List (List String)) (v : Int) (d : GoDate),
       6 ≤ r.length →
       atoi (r.getD 1 "") = some v → parseDate (r.getD 2 "") = some d →
       ratingModeItems (r :: rs) =
         (match ratingModeItems rs with
          | .ok items => .ok (⟨r.getD 0 "", r.getD 5 "", some v, some d⟩ :: items)
          | other => other)) ∧
    readResponse ratingExportRes resourceTypeRating =
      .ok (none, [⟨"tt0111161", "movie", some 9, some ⟨2020, 5, 1⟩⟩]) := by
  refine ⟨?_, ?_, ?_, by decide⟩
  · intro r rs hlen hat
    simp only [ratingModeItems, get?_eq_some_getD r 1 (by omega), hat]
  · intro r rs v hlen hat hpd
    simp only [ratingModeItems, get?_eq_some_getD r 1 (by omega), hat,
      get?_eq_some_getD r 2 (by omega), hpd]
  · intro r rs v d hlen hat hpd
    simp only [ratingModeItems, get?_eq_some_getD r 1 (by omega), hat,
      get?_eq_some_getD r 2 (by omega), hpd,
      get?_eq_some_getD r 0 (by omega), get?_eq_some_getD r 5 (by omega)]

/-- Witness for C4: a row whose rating column is not an integer is
fatal; a row whose date column is malformed is fatal; the concrete
good row produces its item. -/
theorem ratingMode_columns_witness :
    ratingModeItems [["a", "x", "2020-05-01", "", "", "movie"]] = .fatal ∧
    ratingModeItems [["a", "9", "2020-13-45", "", "", "movie"]] = .fatal ∧
    ratingModeItems [["tt0111161", "9", "2020-05-01", "", "", "movie"]] =
      (match ratingModeItems ([] : List (List String)) with
       | .ok items => .ok (⟨"tt0111161", "movie", some 9, some ⟨2020, 5, 1⟩⟩ :: items)
       | other => other) := by
  refine ⟨?_, ?_, ?_⟩
  · exact ratingMode_columns.1 ["a", "x", "2020-05-01", "", "", "movie"] []
      (by decide) (by decide)
  · exact ratingMode_columns.2.1 ["a", "9", "2020-13-45", "", "", "movie"] [] 9
      (by decide) (by decide) (by decide)
  · exact ratingMode_columns.2.2.1 ["tt0111161", "9", "2020-05-01", "", "", "movie"] []
      9 ⟨2020, 5, 1⟩ (by decide) (by decide) (by decide)

/-- C5: every Catalog Item produced by readResponse satisfies the
invariant that rating and ratedOn are both present or both absent:
list-mode items carry neither field, rating-mode items carry both, and
for any resType a produced item has rating present exactly when the
date is present. -/
theorem readResponse_rating_invariant :
    (∀ (res : HttpResponse) (name : Option String) (items : List ImdbItem),
       readResponse res resourceTypeList = .ok (name, items) →
       ∀ it ∈ items, it.Rating = none ∧ it.RatingDate = none) ∧
    (∀ (res : HttpResponse) (name : Option String) (items : List ImdbItem),
       readResponse res resourceTypeRating = .ok (name, items) →
       ∀ it ∈ items, it.Rating.isSome = true ∧ it.RatingDate.isSome = true) ∧
    (∀ (res : HttpResponse) (resType : String) (name : Option String)
       (items : List ImdbItem),
       readResponse res resType = .ok (name, items) →
       ∀ it ∈ items, it.Rating.isSome = it.RatingDate.isSome) := by
  have hlist : ∀ (res : HttpResponse) (name : Option String) (items : List ImdbItem),
      readResponse res resourceTypeList = .ok (name, items) →
      ∀ it ∈ items, it.Rating = none ∧ it.RatingDate = none := by
    intro res name items h it hit
    obtain ⟨rows, _, hitems⟩ := readResponse_list_items res name items h
    exact listModeItems_rating_none (rows.drop 1) items hitems it hit
  have hrat : ∀ (res : HttpResponse) (name : Option String) (items : List ImdbItem),
      readResponse res resourceTypeRating = .ok (name, items) →
      ∀ it ∈ items, it.Rating.isSome = true ∧ it.RatingDate.isSome = true := by
    intro res name items h it hit
    obtain ⟨_, rows, _, hitems⟩ := readResponse_rating_items res name items h
    exact ratingModeItems_rated (rows.drop 1) items hitems it hit
  refine ⟨hlist, hrat, ?_⟩
  intro res resType name items h it hit
  by_cases hL : resType = resourceTypeList
  · subst hL
    obtain ⟨h1, h2⟩ := hlist res name items h it hit
    rw [h1, h2]
    rfl
  · by_cases hR : resType = resourceTypeRating
    · subst hR
      obtain ⟨h1, h2⟩ := hrat res name items h it hit
      rw [h1, h2]
    · rw [readResponse_other_fatal res resType hL hR] at h
      cases h

/-- Witness for C5 at the concrete list and rating exports. -/
theorem readResponse_rating_invariant_witness :
    ((⟨"tt0111161", "movie", none, none⟩ : ImdbItem).Rating = none ∧
      (⟨"tt0111161", "movie", none, none⟩ : ImdbItem).RatingDate = none) ∧
    ((⟨"tt0111161", "movie", some 9, some ⟨2020, 5, 1⟩⟩ : ImdbItem).Rating.isSome = true ∧
      (⟨"tt0111161", "movie", some 9, some ⟨2020, 5, 1⟩⟩ : ImdbItem).RatingDate.isSome
        = true) := by
  constructor
  · exact readResponse_rating_invariant.1 listExportRes (some "My List")
      [⟨"tt0111161", "movie", none, none⟩] (by decide)
      ⟨"tt0111161", "movie", none, none⟩ (by decide)
  · exact readResponse_rating_invariant.2.1 ratingExportRes none
      [⟨"tt0111161", "movie", some 9, some ⟨2020, 5, 1⟩⟩] (by decide)
      ⟨"tt0111161", "movie", some 9, some ⟨2020, 5, 1⟩⟩ (by decide)

/-- C8: in list mode the header row (index 0) is excluded whatever its
content (the result does not depend on it), and each remaining row
contributes exactly one item with externalId from column index 1 and
titleType from column index 7 and no rating fields. -/
theorem listMode_header_skip_and_columns :
    (∀ (h1 h2 : List String) (rest : List (List String)) (cd : CDHeader) (html : HtmlDoc),
       readResponse ⟨200, cd, some (h1 :: rest), html⟩ resourceTypeList =
         readResponse ⟨200, cd, some (h2 :: rest), html⟩ resourceTypeList) ∧
    (∀ (hdr : List String) (rest : List (List String)) (ps : List (String × String))
       (html : HtmlDoc),
       ps.isEmpty = false → (∀ r ∈ rest, 8 ≤ r.length) →
       readResponse ⟨200, CDHeader.parsed ps, some (hdr :: rest), html⟩ resourceTypeList =
         .ok (some (firstDotSegment ((ps.lookup "filename").getD "")),
           rest.map fun r => ⟨r.getD 1 "", r.getD 7 "", none, none⟩)) := by
  constructor
  · intro h1 h2 rest cd html
    rfl
  · intro hdr rest ps html hps hwf
    simp [readResponse, listModeItems_wf rest hwf, hps]

/-- Witness for C8: a concrete export whose header row is junk still
yields exactly the items of the remaining rows. -/
theorem listMode_header_skip_and_columns_witness :
    readResponse ⟨200, CDHeader.parsed [("filename", "My List.csv")],
        some [["junk"], ["1", "tt0111161", "a", "b", "c", "d", "e", "movie"]],
        emptyHtml⟩ resourceTypeList =
      .ok (some "My List", [⟨"tt0111161", "movie", none, none⟩]) := by
  rw [listMode_header_skip_and_columns.2 ["junk"]
    [["1", "tt0111161", "a", "b", "c", "d", "e", "movie"]]
    [("filename", "My List.csv")] emptyHtml (by decide) (by decide)]
  decide

/-- C10: WatchlistGet returns the configured watchlist id as the
collection name whenever it succeeds (the name derived from the
Content-Disposition filename is discarded), yet it parses the response
in list mode, so an absent or unparsable Content-Disposition header is
fatal even though the derived name is never used. -/
theorem watchlistGet_config_id_and_header_fatal :
    (∀ (net : Network) (watchlistId : String) (name : Option String)
       (items : List ImdbItem),
       WatchlistGet net watchlistId = .ok (name, items) → name = some watchlistId) ∧
    (∀ (net : Network) (watchlistId : String) (res : HttpResponse)
       (rows : List (List String)),
       net ⟨"GET", imdbPathListExport watchlistId, none⟩ = .ok res →
       res.StatusCode = 200 → res.csvData = some rows →
       (∀ r ∈ rows.drop 1, 8 ≤ r.length) →
       (res.contentDisposition = CDHeader.absent ∨
         res.contentDisposition = CDHeader.unparsable) →
       WatchlistGet net watchlistId = .fatal) := by
  constructor
  · intro net wid name items h
    simp only [WatchlistGet] at h
    cases hd : doRequest net ⟨"GET", imdbPathListExport wid, none⟩ with
    | ok res =>
      simp only [hd] at h
      by_cases h404 : res.StatusCode = 404
      · rw [if_pos h404] at h; cases h
      · rw [if_neg h404] at h
        cases hr : readResponse res resourceTypeList with
        | ok pair =>
          obtain ⟨n, list⟩ := pair
          simp only [hr] at h
          cases h
          rfl
        | err e => simp only [hr] at h; cases h
        | crash => simp only [hr] at h; cases h
        | fatal => simp only [hr] at h; cases h
    | err e => simp only [hd] at h; cases h
    | crash => simp only [hd] at h; cases h
    | fatal => simp only [hd] at h; cases h
  · intro net wid res rows hnet hsc hcsv hwf hcd
    have hlist := listModeItems_wf (rows.drop 1) hwf
    rw [List.drop_one] at hlist
    rcases hcd with hcd | hcd <;>
      simp [WatchlistGet, doRequest, hnet, hsc, readResponse, hcsv, hlist, hcd]

/-- Witness for C10: a successful fetch returns the configured id as
the name, and a fetch whose response lacks the Content-Disposition
header is fatal. -/
theorem watchlistGet_config_id_and_header_fatal_witness :
    (some "lsB" : Option String) = some "lsB" ∧
    WatchlistGet netNoHeader "ls5" = .fatal := by
  constructor
  · exact watchlistGet_config_id_and_header_fatal.1 netEnum404 "lsB" (some "lsB")
      [⟨"tt0111161", "movie", none, none⟩] (by decide)
  · exact watchlistGet_config_id_and_header_fatal.2 netNoHeader "ls5"
      ⟨200, CDHeader.absent, some csvListBody, emptyHtml⟩ csvListBody
      (by decide) rfl rfl (by decide) (Or.inl rfl)

end ImdbClient
